import Mathlib

/-!
Formal model of the budget-tool income engine: the Ontario 2026 tax model
(src/lib/tax.ts) and the monthly aggregation (src/lib/budget-state.ts).

JS numbers are modelled as exact rationals (ℚ).  JS `Math.round x` is
modelled as `⌊x + 1/2⌋` (round half toward +∞, the ECMAScript semantics).
`Number.POSITIVE_INFINITY` as a bracket limit is modelled by the `none`
case of an optional limit.
-/

namespace BudgetTool

/-- One tax bracket of the source tables: `limit = none` encodes the source's
`Number.POSITIVE_INFINITY` upper bound. -/
structure TaxBracket where
  limit : Option ℚ
  rate : ℚ
deriving DecidableEq

/-- Source table `FEDERAL_BRACKETS_2026` from src/lib/tax.ts. -/
def FEDERAL_BRACKETS_2026 : List TaxBracket :=
  [⟨some 58523, 0.14⟩, ⟨some 117046, 0.205⟩, ⟨some 181205, 0.26⟩,
   ⟨some 258482, 0.29⟩, ⟨none, 0.33⟩]

/-- Source table `ONTARIO_BRACKETS_2026` from src/lib/tax.ts. -/
def ONTARIO_BRACKETS_2026 : List TaxBracket :=
  [⟨some 52886, 0.0505⟩, ⟨some 105775, 0.0915⟩, ⟨some 150000, 0.1116⟩,
   ⟨some 220000, 0.1216⟩, ⟨none, 0.1316⟩]

def FEDERAL_BPA_MAX_2026 : ℚ := 16452
def FEDERAL_BPA_MIN_2026 : ℚ := 14162
def FEDERAL_BPA_PHASEOUT_START_2026 : ℚ := 181205
def FEDERAL_BPA_PHASEOUT_END_2026 : ℚ := 258482
def ONTARIO_BPA_2026 : ℚ := 12989
def ONTARIO_TAX_REDUCTION_BASE_2026 : ℚ := 300

def CPP_BASE_EXEMPTION_2026 : ℚ := 3500
def CPP_YMPE_2026 : ℚ := 74600
def CPP_YAMPE_2026 : ℚ := 85000
def CPP_BASE_AND_FIRST_RATE_2026 : ℚ := 0.0595
def CPP_SECOND_RATE_2026 : ℚ := 0.04

def EI_MAX_INSURABLE_EARNINGS_2026 : ℚ := 68900
def EI_RATE_2026 : ℚ := 0.0163

/-- Source `roundMoney`: `Math.round(value * 100) / 100`, with JS
`Math.round` modelled as floor of the value plus one half. -/
def roundMoney (value : ℚ) : ℚ := (⌊value * 100 + 1 / 2⌋ : ℚ) / 100

/-- Source `clamp`: `Math.min(Math.max(value, min), max)`. -/
def clamp (value lo hi : ℚ) : ℚ := min (max value lo) hi

/-- Loop body of the source `calculateProgressiveTax`: arguments are the
mutable locals `remaining`, `previousLimit`, `tax` and the brackets still to
be walked.  For an infinite-limit bracket `bracketSpan` is infinite, so
`taxableAtRate = remaining` and the new `remaining` is `0`; the source then
sets `previousLimit` to infinity, which is irrelevant because the loop body
never runs again with `remaining = 0`, so we keep `previousLimit` unchanged. -/
def progressiveTaxGo : ℚ → ℚ → ℚ → List TaxBracket → ℚ
  | _, _, tax, [] => tax
  | remaining, previousLimit, tax, b :: bs =>
    if remaining ≤ 0 then tax
    else
      match b.limit with
      | some l =>
          progressiveTaxGo (remaining - min remaining (l - previousLimit)) l
            (tax + min remaining (l - previousLimit) * b.rate) bs
      | none =>
          progressiveTaxGo (remaining - remaining) previousLimit
            (tax + remaining * b.rate) bs

/-- Source `calculateProgressiveTax` from src/lib/tax.ts. -/
def calculateProgressiveTax (income : ℚ) (brackets : List TaxBracket) : ℚ :=
  progressiveTaxGo (max 0 income) 0 0 brackets

/-- Source `calculateFederalBasicPersonalAmount` from src/lib/tax.ts. -/
def calculateFederalBasicPersonalAmount (taxableIncome : ℚ) : ℚ :=
  if taxableIncome ≤ FEDERAL_BPA_PHASEOUT_START_2026 then
    FEDERAL_BPA_MAX_2026
  else if FEDERAL_BPA_PHASEOUT_END_2026 ≤ taxableIncome then
    FEDERAL_BPA_MIN_2026
  else
    FEDERAL_BPA_MAX_2026 -
      (taxableIncome - FEDERAL_BPA_PHASEOUT_START_2026) /
        (FEDERAL_BPA_PHASEOUT_END_2026 - FEDERAL_BPA_PHASEOUT_START_2026) *
        (FEDERAL_BPA_MAX_2026 - FEDERAL_BPA_MIN_2026)

/-- Source `calculateOntarioHealthPremium` from src/lib/tax.ts. -/
def calculateOntarioHealthPremium (taxableIncome : ℚ) : ℚ :=
  if taxableIncome ≤ 20000 then 0
  else if taxableIncome ≤ 25000 then min 300 ((taxableIncome - 20000) * 0.06)
  else if taxableIncome ≤ 36000 then 300
  else if taxableIncome ≤ 38500 then 300 + min 150 ((taxableIncome - 36000) * 0.06)
  else if taxableIncome ≤ 48000 then 450
  else if taxableIncome ≤ 48600 then 450 + min 150 ((taxableIncome - 48000) * 0.25)
  else if taxableIncome ≤ 72000 then 600
  else if taxableIncome ≤ 72600 then 600 + min 150 ((taxableIncome - 72000) * 0.25)
  else if taxableIncome ≤ 200000 then 750
  else 900

/-- Source `calculateOntarioSurtax` from src/lib/tax.ts. -/
def calculateOntarioSurtax (provincialTaxBeforeSurtax : ℚ) : ℚ :=
  max 0 ((provincialTaxBeforeSurtax - 5554) * 0.2) +
    max 0 ((provincialTaxBeforeSurtax - 7108) * 0.36)

/-- Source `BonusType` from src/lib/types.ts. -/
inductive BonusType where
  | none
  | amount
  | percentage
deriving DecidableEq

/-- Source `IncomeInput` from src/lib/tax.ts. -/
structure IncomeInput where
  yearlySalary : ℚ
  bonusType : BonusType
  bonusValue : ℚ
deriving DecidableEq

/-- Source `calculateAnnualBonus` from src/lib/tax.ts. -/
def calculateAnnualBonus (input : IncomeInput) : ℚ :=
  let salary := max 0 input.yearlySalary
  let normalizedBonusValue := max 0 input.bonusValue
  match input.bonusType with
  | BonusType.amount => normalizedBonusValue
  | BonusType.percentage => salary * normalizedBonusValue / 100
  | BonusType.none => 0

/-- Result record of the source `calculateCppContributions`. -/
structure CppContributions where
  baseAndFirst : ℚ
  second : ℚ
  total : ℚ
deriving DecidableEq

/-- Source `calculateCppContributions` from src/lib/tax.ts. -/
def calculateCppContributions (taxableIncome : ℚ) : CppContributions :=
  let baseAndFirstPensionableIncome :=
    clamp (taxableIncome - CPP_BASE_EXEMPTION_2026) 0
      (CPP_YMPE_2026 - CPP_BASE_EXEMPTION_2026)
  let baseAndFirst := baseAndFirstPensionableIncome * CPP_BASE_AND_FIRST_RATE_2026
  let secondPensionableIncome :=
    clamp (taxableIncome - CPP_YMPE_2026) 0 (CPP_YAMPE_2026 - CPP_YMPE_2026)
  let second := secondPensionableIncome * CPP_SECOND_RATE_2026
  { baseAndFirst := baseAndFirst, second := second, total := baseAndFirst + second }

/-- Source `calculateEiPremium` from src/lib/tax.ts. -/
def calculateEiPremium (taxableIncome : ℚ) : ℚ :=
  clamp taxableIncome 0 EI_MAX_INSURABLE_EARNINGS_2026 * EI_RATE_2026

/-- Source `OntarioIncomeBreakdown` from src/lib/tax.ts. -/
structure OntarioIncomeBreakdown where
  annualSalary : ℚ
  annualBonus : ℚ
  annualGrossIncome : ℚ
  taxableIncome : ℚ
  federalTax : ℚ
  provincialTax : ℚ
  cppContribution : ℚ
  eiPremium : ℚ
  totalDeductions : ℚ
  annualNetIncome : ℚ
  monthlyNetIncome : ℚ
deriving DecidableEq

/-- Local `federalTaxBeforeCredits` of `calculateOntarioNetIncomeFromGross`,
as a function of its local `taxableIncome`. -/
def federalTaxBeforeCreditsOf (t : ℚ) : ℚ :=
  calculateProgressiveTax t FEDERAL_BRACKETS_2026

/-- Local `federalCredits` of `calculateOntarioNetIncomeFromGross`:
`FEDERAL_BRACKETS_2026[0].rate * (BPA + cpp.baseAndFirst + eiPremium)`. -/
def federalCreditsOf (t : ℚ) : ℚ :=
  (FEDERAL_BRACKETS_2026.getD 0 ⟨Option.none, 0⟩).rate *
    (calculateFederalBasicPersonalAmount t +
      (calculateCppContributions t).baseAndFirst + calculateEiPremium t)

/-- Local `federalTax` of `calculateOntarioNetIncomeFromGross`. -/
def federalTaxOf (t : ℚ) : ℚ :=
  max 0 (federalTaxBeforeCreditsOf t - federalCreditsOf t)

/-- Local `provincialTaxBeforeCredits` of `calculateOntarioNetIncomeFromGross`. -/
def provincialTaxBeforeCreditsOf (t : ℚ) : ℚ :=
  calculateProgressiveTax t ONTARIO_BRACKETS_2026

/-- Local `provincialCredits` of `calculateOntarioNetIncomeFromGross`:
`ONTARIO_BRACKETS_2026[0].rate * (ONTARIO_BPA_2026 + cpp.baseAndFirst + eiPremium)`. -/
def provincialCreditsOf (t : ℚ) : ℚ :=
  (ONTARIO_BRACKETS_2026.getD 0 ⟨Option.none, 0⟩).rate *
    (ONTARIO_BPA_2026 + (calculateCppContributions t).baseAndFirst + calculateEiPremium t)

/-- Local `provincialBasicTax` of `calculateOntarioNetIncomeFromGross`. -/
def provincialBasicTaxOf (t : ℚ) : ℚ :=
  max 0 (provincialTaxBeforeCreditsOf t - provincialCreditsOf t)

/-- Local `provincialTaxBeforeReduction` of `calculateOntarioNetIncomeFromGross`:
basic tax plus surtax plus health premium. -/
def provincialTaxBeforeReductionOf (t : ℚ) : ℚ :=
  provincialBasicTaxOf t + calculateOntarioSurtax (provincialBasicTaxOf t) +
    calculateOntarioHealthPremium t

/-- Local `ontarioTaxReduction` of `calculateOntarioNetIncomeFromGross`. -/
def ontarioTaxReductionOf (t : ℚ) : ℚ :=
  min (provincialTaxBeforeReductionOf t)
    (max 0 (ONTARIO_TAX_REDUCTION_BASE_2026 * 2 - provincialTaxBeforeReductionOf t))

/-- Local `provincialTax` of `calculateOntarioNetIncomeFromGross`. -/
def provincialTaxOf (t : ℚ) : ℚ :=
  max 0 (provincialTaxBeforeReductionOf t - ontarioTaxReductionOf t)

/-- Local `totalDeductions` of `calculateOntarioNetIncomeFromGross`. -/
def totalDeductionsOf (t : ℚ) : ℚ :=
  federalTaxOf t + provincialTaxOf t + (calculateCppContributions t).total +
    calculateEiPremium t

/-- Local `annualNetIncome` of `calculateOntarioNetIncomeFromGross`. -/
def annualNetIncomeOf (t : ℚ) : ℚ := max 0 (t - totalDeductionsOf t)

/-- Source `calculateOntarioNetIncomeFromGross` from src/lib/tax.ts, with each
source local bound through the `...Of` helpers above (all functions of the
local `taxableIncome = max 0 annualGrossIncome`). -/
def calculateOntarioNetIncomeFromGross (annualGrossIncome : ℚ) : OntarioIncomeBreakdown :=
  let taxableIncome := max 0 annualGrossIncome
  { annualSalary := roundMoney taxableIncome
    annualBonus := 0
    annualGrossIncome := roundMoney taxableIncome
    taxableIncome := roundMoney taxableIncome
    federalTax := roundMoney (federalTaxOf taxableIncome)
    provincialTax := roundMoney (provincialTaxOf taxableIncome)
    cppContribution := roundMoney (calculateCppContributions taxableIncome).total
    eiPremium := roundMoney (calculateEiPremium taxableIncome)
    totalDeductions := roundMoney (totalDeductionsOf taxableIncome)
    annualNetIncome := roundMoney (annualNetIncomeOf taxableIncome)
    monthlyNetIncome := roundMoney (annualNetIncomeOf taxableIncome / 12) }

/-- Source `calculateOntarioNetIncomeFromInput` from src/lib/tax.ts. -/
def calculateOntarioNetIncomeFromInput (input : IncomeInput) : OntarioIncomeBreakdown :=
  let annualSalary := max 0 input.yearlySalary
  let annualBonus := calculateAnnualBonus input
  let annualGrossIncome := annualSalary + annualBonus
  let breakdown := calculateOntarioNetIncomeFromGross annualGrossIncome
  { breakdown with
      annualSalary := roundMoney annualSalary
      annualBonus := roundMoney annualBonus
      annualGrossIncome := roundMoney annualGrossIncome }

/-- Source `BudgetFrequency` from src/lib/types.ts (`biweekly` models the
string value written bi-weekly in the source). -/
inductive BudgetFrequency where
  | monthly
  | biweekly
deriving DecidableEq

/-- Source `ExpenseItem` from src/lib/types.ts. -/
structure ExpenseItem where
  name : String
  amount : ℚ
  frequency : BudgetFrequency
deriving DecidableEq

/-- Source `InvestmentState` from src/lib/types.ts. -/
structure InvestmentState where
  tfsa : ℚ
  fhsa : ℚ
  rrsp : ℚ
  emergencyFund : ℚ
deriving DecidableEq

/-- Investment slice of the source `BudgetFrequencies` from src/lib/types.ts. -/
structure InvestmentFrequencies where
  tfsa : BudgetFrequency
  fhsa : BudgetFrequency
  rrsp : BudgetFrequency
  emergencyFund : BudgetFrequency
deriving DecidableEq

/-- Source `BudgetFrequencies` from src/lib/types.ts. -/
structure BudgetFrequencies where
  investments : InvestmentFrequencies
deriving DecidableEq

/-- Source `BudgetState` from src/lib/types.ts. -/
structure BudgetState where
  yearlySalary : ℚ
  bonusType : BonusType
  bonusValue : ℚ
  expenses : List ExpenseItem
  investments : InvestmentState
  frequencies : BudgetFrequencies
deriving DecidableEq

/-- Source `toMonthlyAmount` from src/lib/budget-state.ts. -/
def toMonthlyAmount (amount : ℚ) (frequency : BudgetFrequency) : ℚ :=
  match frequency with
  | BudgetFrequency.biweekly => amount * 26 / 12
  | BudgetFrequency.monthly => amount

/-- Result record of the source `calculateTotals`. -/
structure BudgetTotals where
  monthlyIncome : ℚ
  totalExpenses : ℚ
  totalInvestments : ℚ
  leftover : ℚ
deriving DecidableEq

/-- Unrounded `totalExpenses` accumulator of the source `calculateTotals`
(the `reduce` over expense rows). -/
def totalExpensesRaw (expenses : List ExpenseItem) : ℚ :=
  expenses.foldl (fun sum row => sum + toMonthlyAmount row.amount row.frequency) 0

/-- Unrounded `totalInvestments` of the source `calculateTotals`. -/
def totalInvestmentsRaw (s : BudgetState) : ℚ :=
  toMonthlyAmount s.investments.tfsa s.frequencies.investments.tfsa +
    toMonthlyAmount s.investments.fhsa s.frequencies.investments.fhsa +
    toMonthlyAmount s.investments.rrsp s.frequencies.investments.rrsp +
    toMonthlyAmount s.investments.emergencyFund s.frequencies.investments.emergencyFund

/-- Source `calculateTotals` from src/lib/budget-state.ts. -/
def calculateTotals (s : BudgetState) : BudgetTotals :=
  let monthlyIncome :=
    (calculateOntarioNetIncomeFromInput
      ⟨s.yearlySalary, s.bonusType, s.bonusValue⟩).monthlyNetIncome
  let totalExpenses := totalExpensesRaw s.expenses
  let totalInvestments := totalInvestmentsRaw s
  { monthlyIncome := roundMoney monthlyIncome
    totalExpenses := roundMoney totalExpenses
    totalInvestments := roundMoney totalInvestments
    leftover := roundMoney (monthlyIncome - totalExpenses - totalInvestments) }

/-- Modelled from the spec (§3, §4.1 step 3): the standard marginal-bracket
reference definition.  Walking the brackets with previous bound `prev`, each
bracket contributes its rate times the part of the (already clamped) income
falling between `prev` and its own bound; an infinite bound takes everything
above `prev`. -/
def refMarginalTaxGo (income : ℚ) : ℚ → List TaxBracket → ℚ
  | _, [] => 0
  | prev, b :: bs =>
    match b.limit with
    | some l => b.rate * max 0 (min income l - prev) + refMarginalTaxGo income l bs
    | none => b.rate * max 0 (income - prev)

/-- Modelled from the spec: reference pre-credit progressive tax, the sum over
brackets of the rate times the part of `max 0 income` in that bracket. -/
def refMarginalTax (income : ℚ) (brackets : List TaxBracket) : ℚ :=
  refMarginalTaxGo (max 0 income) 0 brackets

/-- Bracket bounds are strictly increasing from `prev` on, with an infinite
bound allowed only in final position. -/
def strictChainFrom : ℚ → List TaxBracket → Prop
  | _, [] => True
  | prev, b :: bs =>
    match b.limit with
    | some l => prev < l ∧ strictChainFrom l bs
    | none => bs = []

/-- Modelled from the spec (§3, §4.2): currency-style rounding to the cent,
round-half-away-from-zero. -/
def specRoundHalfAwayFromZero (value : ℚ) : ℚ :=
  if value < 0 then -((⌊-value * 100 + 1 / 2⌋ : ℚ) / 100)
  else (⌊value * 100 + 1 / 2⌋ : ℚ) / 100

/-- Budget used as concrete input of the aggregation counterexample: zero
income, a single monthly expense of 0.125, no investments. -/
def eighthExpenseBudget : BudgetState :=
  { yearlySalary := 0
    bonusType := BonusType.none
    bonusValue := 0
    expenses := [⟨"Expense", 1 / 8, BudgetFrequency.monthly⟩]
    investments := ⟨0, 0, 0, 0⟩
    frequencies := ⟨⟨BudgetFrequency.monthly, BudgetFrequency.monthly,
      BudgetFrequency.monthly, BudgetFrequency.monthly⟩⟩ }

/-- Budget used as concrete input of the aggregation witness: salary 60000,
one monthly and one bi-weekly expense, one bi-weekly investment bucket. -/
def witnessBudget : BudgetState :=
  { yearlySalary := 60000
    bonusType := BonusType.amount
    bonusValue := 5000
    expenses := [⟨"Rent", 1800, BudgetFrequency.monthly⟩,
                 ⟨"Groceries", 100, BudgetFrequency.biweekly⟩]
    investments := ⟨200, 0, 150, 50⟩
    frequencies := ⟨⟨BudgetFrequency.biweekly, BudgetFrequency.monthly,
      BudgetFrequency.monthly, BudgetFrequency.monthly⟩⟩ }

section HelperLemmas

lemma max0_idem (x : ℚ) : max 0 (max 0 x) = max 0 x :=
  max_eq_right (le_max_left 0 x)

lemma roundMoney_mono {a b : ℚ} (h : a ≤ b) : roundMoney a ≤ roundMoney b := by
  unfold roundMoney
  have hf : (⌊a * 100 + 1 / 2⌋ : ℤ) ≤ ⌊b * 100 + 1 / 2⌋ :=
    Int.floor_le_floor (by linarith)
  have hc : ((⌊a * 100 + 1 / 2⌋ : ℤ) : ℚ) ≤ ((⌊b * 100 + 1 / 2⌋ : ℤ) : ℚ) := by
    exact_mod_cast hf
  linarith

lemma clamp_mono {a b l u : ℚ} (h : a ≤ b) : clamp a l u ≤ clamp b l u :=
  min_le_min (max_le_max h le_rfl) le_rfl

lemma clamp_lip {a b l u : ℚ} (h : a ≤ b) :
    clamp b l u - clamp a l u ≤ b - a := by
  simp only [clamp, min_def, max_def]
  split_ifs <;> linarith

lemma clamp_nonneg {v hi : ℚ} (hhi : 0 ≤ hi) : 0 ≤ clamp v 0 hi :=
  le_min (le_max_right v 0) hhi

lemma min_sub_min_mono {p l x y : ℚ} (hpl : p ≤ l) (hxy : x ≤ y) :
    min x l - min x p ≤ min y l - min y p := by
  simp only [min_def]
  split_ifs <;> linarith

lemma sub_min_mono {p x y : ℚ} (hxy : x ≤ y) :
    x - min x p ≤ y - min y p := by
  simp only [min_def]
  split_ifs <;> linarith

lemma part_eq {p l : ℚ} (hpl : p ≤ l) (x : ℚ) :
    max 0 (min x l - p) = min x l - min x p := by
  rcases le_total x p with h | h
  · have hxl : x ≤ l := le_trans h hpl
    rw [min_eq_left hxl, min_eq_left h, max_eq_left (by linarith)]
    ring
  · rw [min_eq_right h, max_eq_right (by simp [le_min_iff, h, hpl, le_sub_iff_add_le])]

lemma lastpart_eq {p : ℚ} (x : ℚ) : max 0 (x - p) = x - min x p := by
  rcases le_total x p with h | h
  · rw [min_eq_left h, max_eq_left (by linarith)]; ring
  · rw [min_eq_right h, max_eq_right (by linarith)]

lemma refMarginalTaxGo_eq_zero (I : ℚ) :
    ∀ (bs : List TaxBracket) (prev : ℚ), strictChainFrom prev bs → I ≤ prev →
      refMarginalTaxGo I prev bs = 0
  | [], _, _, _ => rfl
  | b :: bs, prev, hchain, hIp => by
    rcases hb : b.limit with _ | l
    · have h1 : I - prev ≤ 0 := by linarith
      simp [refMarginalTaxGo, hb, max_eq_left h1]
    · have hc : prev < l ∧ strictChainFrom l bs := by
        simpa [strictChainFrom, hb] using hchain
      have h1 : min I l - prev ≤ 0 := by
        have := min_le_left I l; linarith
      have h2 : refMarginalTaxGo I l bs = 0 :=
        refMarginalTaxGo_eq_zero I bs l hc.2 (by linarith [hc.1])
      simp [refMarginalTaxGo, hb, h2, max_eq_left h1]

lemma progressiveTaxGo_eq_refGo (I : ℚ) :
    ∀ (bs : List TaxBracket) (prev tax : ℚ), strictChainFrom prev bs →
      progressiveTaxGo (max 0 (I - prev)) prev tax bs =
        tax + refMarginalTaxGo I prev bs
  | [], _, tax, _ => by simp [progressiveTaxGo, refMarginalTaxGo]
  | b :: bs, prev, tax, hchain => by
    rcases hb : b.limit with _ | l
    · have hbs : bs = [] := by simpa [strictChainFrom, hb] using hchain
      subst hbs
      rcases le_total I prev with hIp | hIp
      · have h0 : max 0 (I - prev) = 0 := max_eq_left (by linarith)
        simp [progressiveTaxGo, refMarginalTaxGo, hb, h0, max_eq_left (by linarith : I - prev ≤ 0)]
      · have h0 : max 0 (I - prev) = I - prev := max_eq_right (by linarith)
        rw [h0]
        rcases eq_or_lt_of_le hIp with heq | hlt
        · simp [progressiveTaxGo, refMarginalTaxGo, hb, ← heq]
        · have hcond : ¬ (I - prev ≤ 0) := by linarith
          simp only [progressiveTaxGo, refMarginalTaxGo, hb, hcond, if_false]
          rw [max_eq_right (by linarith : (0:ℚ) ≤ I - prev)]
          simp [progressiveTaxGo]
          ring
    · have hc : prev < l ∧ strictChainFrom l bs := by
        simpa [strictChainFrom, hb] using hchain
      rcases le_total I prev with hIp | hIp
      · have h0 : max 0 (I - prev) = 0 := max_eq_left (by linarith)
        have hz : refMarginalTaxGo I l bs = 0 :=
          refMarginalTaxGo_eq_zero I bs l hc.2 (by linarith [hc.1])
        have h1 : min I l - prev ≤ 0 := by
          have := min_le_left I l; linarith
        simp [progressiveTaxGo, refMarginalTaxGo, hb, h0, hz, max_eq_left h1]
      · rcases eq_or_lt_of_le hIp with heq | hlt
        · have h0 : max 0 (I - prev) = 0 := max_eq_left (by simp [heq])
          have hz : refMarginalTaxGo I l bs = 0 :=
            refMarginalTaxGo_eq_zero I bs l hc.2 (by linarith [hc.1])
          have h1 : min I l - prev ≤ 0 := by
            have := min_le_left I l; linarith
          simp [progressiveTaxGo, refMarginalTaxGo, hb, h0, hz, max_eq_left h1]
        · have h0 : max 0 (I - prev) = I - prev := max_eq_right (by linarith)
          have hcond : ¬ (I - prev ≤ 0) := by linarith
          have hmin : min (I - prev) (l - prev) = min I l - prev := by
            rcases le_total I l with h | h
            · rw [min_eq_left (by linarith), min_eq_left h]
            · rw [min_eq_right (by linarith), min_eq_right h]
          have harg : I - prev - min (I - prev) (l - prev) = max 0 (I - l) := by
            rcases le_total I l with h | h
            · rw [min_eq_left (by linarith), max_eq_left (by linarith)]; ring
            · rw [min_eq_right (by linarith), max_eq_right (by linarith)]; ring
          have hnn : (0:ℚ) ≤ min I l - prev := by
            have h1 : prev ≤ min I l := le_min (le_of_lt hlt) (le_of_lt hc.1)
            linarith
          rw [h0]
          simp only [progressiveTaxGo, refMarginalTaxGo, hb, hcond, if_false]
          rw [harg, progressiveTaxGo_eq_refGo I bs l (tax + min (I - prev) (l - prev) * b.rate) hc.2]
          rw [hmin, max_eq_right hnn]
          ring

/-- Shared helper: on a strictly increasing bracket table the source loop
computes exactly the reference marginal-bracket sum. -/
lemma calculateProgressiveTax_eq_ref (income : ℚ) (bs : List TaxBracket)
    (h : strictChainFrom 0 bs) :
    calculateProgressiveTax income bs = refMarginalTax income bs := by
  unfold calculateProgressiveTax refMarginalTax
  have h0 : (0:ℚ) ≤ max 0 income := le_max_left 0 income
  have hmain := progressiveTaxGo_eq_refGo (max 0 income) bs 0 0 h
  rw [sub_zero, max_eq_right h0] at hmain
  simpa using hmain

lemma fed_strictChain : strictChainFrom 0 FEDERAL_BRACKETS_2026 := by
  simp only [FEDERAL_BRACKETS_2026, strictChainFrom]
  norm_num

lemma ont_strictChain : strictChainFrom 0 ONTARIO_BRACKETS_2026 := by
  simp only [ONTARIO_BRACKETS_2026, strictChainFrom]
  norm_num

lemma fed_ref_closed (I : ℚ) :
    refMarginalTax I FEDERAL_BRACKETS_2026 =
      0.14 * min (max 0 I) 58523 +
        0.205 * (min (max 0 I) 117046 - min (max 0 I) 58523) +
        0.26 * (min (max 0 I) 181205 - min (max 0 I) 117046) +
        0.29 * (min (max 0 I) 258482 - min (max 0 I) 181205) +
        0.33 * (max 0 I - min (max 0 I) 258482) := by
  have hx : (0:ℚ) ≤ max 0 I := le_max_left 0 I
  unfold refMarginalTax FEDERAL_BRACKETS_2026
  simp only [refMarginalTaxGo]
  rw [part_eq (by norm_num : (0:ℚ) ≤ 58523),
      part_eq (by norm_num : (58523:ℚ) ≤ 117046),
      part_eq (by norm_num : (117046:ℚ) ≤ 181205),
      part_eq (by norm_num : (181205:ℚ) ≤ 258482),
      lastpart_eq, min_eq_right hx]
  ring

lemma ont_ref_closed (I : ℚ) :
    refMarginalTax I ONTARIO_BRACKETS_2026 =
      0.0505 * min (max 0 I) 52886 +
        0.0915 * (min (max 0 I) 105775 - min (max 0 I) 52886) +
        0.1116 * (min (max 0 I) 150000 - min (max 0 I) 105775) +
        0.1216 * (min (max 0 I) 220000 - min (max 0 I) 150000) +
        0.1316 * (max 0 I - min (max 0 I) 220000) := by
  have hx : (0:ℚ) ≤ max 0 I := le_max_left 0 I
  unfold refMarginalTax ONTARIO_BRACKETS_2026
  simp only [refMarginalTaxGo]
  rw [part_eq (by norm_num : (0:ℚ) ≤ 52886),
      part_eq (by norm_num : (52886:ℚ) ≤ 105775),
      part_eq (by norm_num : (105775:ℚ) ≤ 150000),
      part_eq (by norm_num : (150000:ℚ) ≤ 220000),
      lastpart_eq, min_eq_right hx]
  ring

/-- Pre-credit federal tax grows at least at the lowest bracket rate. -/
lemma fedPre_superadd {a b : ℚ} (hab : a ≤ b) :
    0.14 * (max 0 b - max 0 a) ≤
      federalTaxBeforeCreditsOf b - federalTaxBeforeCreditsOf a := by
  unfold federalTaxBeforeCreditsOf
  rw [calculateProgressiveTax_eq_ref a _ fed_strictChain,
      calculateProgressiveTax_eq_ref b _ fed_strictChain,
      fed_ref_closed, fed_ref_closed]
  have hx : max 0 a ≤ max 0 b := max_le_max le_rfl hab
  have h1 : min (max 0 a) 58523 ≤ min (max 0 b) 58523 := min_le_min hx le_rfl
  have h2 := min_sub_min_mono (by norm_num : (58523:ℚ) ≤ 117046) hx
  have h3 := min_sub_min_mono (by norm_num : (117046:ℚ) ≤ 181205) hx
  have h4 := min_sub_min_mono (by norm_num : (181205:ℚ) ≤ 258482) hx
  have h5 := sub_min_mono (p := 258482) hx
  linarith

/-- Pre-credit provincial tax grows at least at the lowest bracket rate. -/
lemma provPre_superadd {a b : ℚ} (hab : a ≤ b) :
    0.0505 * (max 0 b - max 0 a) ≤
      provincialTaxBeforeCreditsOf b - provincialTaxBeforeCreditsOf a := by
  unfold provincialTaxBeforeCreditsOf
  rw [calculateProgressiveTax_eq_ref a _ ont_strictChain,
      calculateProgressiveTax_eq_ref b _ ont_strictChain,
      ont_ref_closed, ont_ref_closed]
  have hx : max 0 a ≤ max 0 b := max_le_max le_rfl hab
  have h1 : min (max 0 a) 52886 ≤ min (max 0 b) 52886 := min_le_min hx le_rfl
  have h2 := min_sub_min_mono (by norm_num : (52886:ℚ) ≤ 105775) hx
  have h3 := min_sub_min_mono (by norm_num : (105775:ℚ) ≤ 150000) hx
  have h4 := min_sub_min_mono (by norm_num : (150000:ℚ) ≤ 220000) hx
  have h5 := sub_min_mono (p := 220000) hx
  linarith

lemma cpp_baseAndFirst_eq (t : ℚ) :
    (calculateCppContributions t).baseAndFirst = clamp (t - 3500) 0 71100 * 0.0595 := by
  simp [calculateCppContributions, CPP_BASE_EXEMPTION_2026, CPP_YMPE_2026,
    CPP_BASE_AND_FIRST_RATE_2026]
  norm_num

lemma cpp_second_eq (t : ℚ) :
    (calculateCppContributions t).second = clamp (t - 74600) 0 10400 * 0.04 := by
  simp [calculateCppContributions, CPP_YMPE_2026, CPP_YAMPE_2026, CPP_SECOND_RATE_2026]
  norm_num

lemma cpp_total_eq (t : ℚ) :
    (calculateCppContributions t).total =
      (calculateCppContributions t).baseAndFirst + (calculateCppContributions t).second := rfl

lemma cppBase_mono {t1 t2 : ℚ} (h : t1 ≤ t2) :
    (calculateCppContributions t1).baseAndFirst ≤ (calculateCppContributions t2).baseAndFirst := by
  rw [cpp_baseAndFirst_eq, cpp_baseAndFirst_eq]
  have := clamp_mono (l := 0) (u := 71100) (by linarith : t1 - 3500 ≤ t2 - 3500)
  nlinarith [this]

lemma cppBase_lip {t1 t2 : ℚ} (h : t1 ≤ t2) :
    (calculateCppContributions t2).baseAndFirst - (calculateCppContributions t1).baseAndFirst ≤
      0.0595 * (t2 - t1) := by
  rw [cpp_baseAndFirst_eq, cpp_baseAndFirst_eq]
  have := clamp_lip (l := 0) (u := 71100) (by linarith : t1 - 3500 ≤ t2 - 3500)
  nlinarith [this]

lemma cppSecond_mono {t1 t2 : ℚ} (h : t1 ≤ t2) :
    (calculateCppContributions t1).second ≤ (calculateCppContributions t2).second := by
  rw [cpp_second_eq, cpp_second_eq]
  have := clamp_mono (l := 0) (u := 10400) (by linarith : t1 - 74600 ≤ t2 - 74600)
  nlinarith [this]

lemma cppTotal_mono {t1 t2 : ℚ} (h : t1 ≤ t2) :
    (calculateCppContributions t1).total ≤ (calculateCppContributions t2).total := by
  rw [cpp_total_eq, cpp_total_eq]
  have h1 := cppBase_mono h
  have h2 := cppSecond_mono h
  linarith

lemma ei_eq (t : ℚ) : calculateEiPremium t = clamp t 0 68900 * 0.0163 := by
  simp [calculateEiPremium, EI_MAX_INSURABLE_EARNINGS_2026, EI_RATE_2026]

lemma ei_mono {t1 t2 : ℚ} (h : t1 ≤ t2) :
    calculateEiPremium t1 ≤ calculateEiPremium t2 := by
  rw [ei_eq, ei_eq]
  have := clamp_mono (l := 0) (u := 68900) h
  nlinarith [this]

lemma ei_lip {t1 t2 : ℚ} (h : t1 ≤ t2) :
    calculateEiPremium t2 - calculateEiPremium t1 ≤ 0.0163 * (t2 - t1) := by
  rw [ei_eq, ei_eq]
  have := clamp_lip (l := 0) (u := 68900) h
  nlinarith [this]

lemma bpa_antitone {t1 t2 : ℚ} (h : t1 ≤ t2) :
    calculateFederalBasicPersonalAmount t2 ≤ calculateFederalBasicPersonalAmount t1 := by
  unfold calculateFederalBasicPersonalAmount FEDERAL_BPA_MAX_2026 FEDERAL_BPA_MIN_2026
    FEDERAL_BPA_PHASEOUT_START_2026 FEDERAL_BPA_PHASEOUT_END_2026
  split_ifs <;> linarith

lemma fed_first_rate :
    (FEDERAL_BRACKETS_2026.getD 0 ⟨Option.none, 0⟩).rate = 0.14 := rfl

lemma ont_first_rate :
    (ONTARIO_BRACKETS_2026.getD 0 ⟨Option.none, 0⟩).rate = 0.0505 := rfl

lemma federalTaxOf_mono {t1 t2 : ℚ} (h0 : 0 ≤ t1) (h : t1 ≤ t2) :
    federalTaxOf t1 ≤ federalTaxOf t2 := by
  unfold federalTaxOf
  refine max_le_max le_rfl ?_
  have hpre := fedPre_superadd h
  rw [max_eq_right h0, max_eq_right (le_trans h0 h)] at hpre
  have hbpa := bpa_antitone h
  have hcpp := cppBase_lip h
  have hei := ei_lip h
  unfold federalCreditsOf
  rw [fed_first_rate]
  linarith

lemma provincialBasicTaxOf_mono {t1 t2 : ℚ} (h0 : 0 ≤ t1) (h : t1 ≤ t2) :
    provincialBasicTaxOf t1 ≤ provincialBasicTaxOf t2 := by
  unfold provincialBasicTaxOf
  refine max_le_max le_rfl ?_
  have hpre := provPre_superadd h
  rw [max_eq_right h0, max_eq_right (le_trans h0 h)] at hpre
  have hcpp := cppBase_lip h
  have hei := ei_lip h
  unfold provincialCreditsOf
  rw [ont_first_rate]
  linarith

lemma surtax_mono {s1 s2 : ℚ} (h : s1 ≤ s2) :
    calculateOntarioSurtax s1 ≤ calculateOntarioSurtax s2 := by
  unfold calculateOntarioSurtax
  have h1 : max 0 ((s1 - 5554) * 0.2) ≤ max 0 ((s2 - 5554) * 0.2) :=
    max_le_max le_rfl (by nlinarith)
  have h2 : max 0 ((s1 - 7108) * 0.36) ≤ max 0 ((s2 - 7108) * 0.36) :=
    max_le_max le_rfl (by nlinarith)
  linarith

lemma premium_nonneg (t : ℚ) : 0 ≤ calculateOntarioHealthPremium t := by
  unfold calculateOntarioHealthPremium
  split_ifs <;> (try simp only [min_def]) <;> (try split_ifs) <;> linarith

lemma premium_le_900 (t : ℚ) : calculateOntarioHealthPremium t ≤ 900 := by
  unfold calculateOntarioHealthPremium
  split_ifs <;> (try simp only [min_def]) <;> (try split_ifs) <;> linarith

/-- Closed form of the health premium: a sum of four capped linear ramps plus
the discontinuous 150 step above 200000. -/
lemma premium_closed (t : ℚ) :
    calculateOntarioHealthPremium t =
      min 300 (max 0 ((t - 20000) * 0.06)) + min 150 (max 0 ((t - 36000) * 0.06)) +
        min 150 (max 0 ((t - 48000) * 0.25)) + min 150 (max 0 ((t - 72000) * 0.25)) +
        (if 200000 < t then 150 else 0) := by
  unfold calculateOntarioHealthPremium
  rcases le_or_lt t 20000 with h1 | h1
  · rw [if_pos h1, max_eq_left (by linarith : (t - 20000) * 0.06 ≤ 0),
      max_eq_left (by linarith : (t - 36000) * 0.06 ≤ 0),
      max_eq_left (by linarith : (t - 48000) * 0.25 ≤ 0),
      max_eq_left (by linarith : (t - 72000) * 0.25 ≤ 0),
      if_neg (by linarith : ¬ (200000:ℚ) < t)]
    norm_num
  rw [if_neg (by linarith : ¬ t ≤ 20000)]
  rcases le_or_lt t 25000 with h2 | h2
  · rw [if_pos h2, max_eq_right (by linarith : (0:ℚ) ≤ (t - 20000) * 0.06),
      max_eq_left (by linarith : (t - 36000) * 0.06 ≤ 0),
      max_eq_left (by linarith : (t - 48000) * 0.25 ≤ 0),
      max_eq_left (by linarith : (t - 72000) * 0.25 ≤ 0),
      if_neg (by linarith : ¬ (200000:ℚ) < t)]
    norm_num
  rw [if_neg (by linarith : ¬ t ≤ 25000)]
  rcases le_or_lt t 36000 with h3 | h3
  · rw [if_pos h3, max_eq_right (by linarith : (0:ℚ) ≤ (t - 20000) * 0.06),
      min_eq_left (by linarith : (300:ℚ) ≤ (t - 20000) * 0.06),
      max_eq_left (by linarith : (t - 36000) * 0.06 ≤ 0),
      max_eq_left (by linarith : (t - 48000) * 0.25 ≤ 0),
      max_eq_left (by linarith : (t - 72000) * 0.25 ≤ 0),
      if_neg (by linarith : ¬ (200000:ℚ) < t)]
    norm_num
  rw [if_neg (by linarith : ¬ t ≤ 36000)]
  rcases le_or_lt t 38500 with h4 | h4
  · rw [if_pos h4, max_eq_right (by linarith : (0:ℚ) ≤ (t - 20000) * 0.06),
      min_eq_left (by linarith : (300:ℚ) ≤ (t - 20000) * 0.06),
      max_eq_right (by linarith : (0:ℚ) ≤ (t - 36000) * 0.06),
      max_eq_left (by linarith : (t - 48000) * 0.25 ≤ 0),
      max_eq_left (by linarith : (t - 72000) * 0.25 ≤ 0),
      if_neg (by linarith : ¬ (200000:ℚ) < t)]
    norm_num
  rw [if_neg (by linarith : ¬ t ≤ 38500)]
  rcases le_or_lt t 48000 with h5 | h5
  · rw [if_pos h5, max_eq_right (by linarith : (0:ℚ) ≤ (t - 20000) * 0.06),
      min_eq_left (by linarith : (300:ℚ) ≤ (t - 20000) * 0.06),
      max_eq_right (by linarith : (0:ℚ) ≤ (t - 36000) * 0.06),
      min_eq_left (by linarith : (150:ℚ) ≤ (t - 36000) * 0.06),
      max_eq_left (by linarith : (t - 48000) * 0.25 ≤ 0),
      max_eq_left (by linarith : (t - 72000) * 0.25 ≤ 0),
      if_neg (by linarith : ¬ (200000:ℚ) < t)]
    norm_num
  rw [if_neg (by linarith : ¬ t ≤ 48000)]
  rcases le_or_lt t 48600 with h6 | h6
  · rw [if_pos h6, max_eq_right (by linarith : (0:ℚ) ≤ (t - 20000) * 0.06),
      min_eq_left (by linarith : (300:ℚ) ≤ (t - 20000) * 0.06),
      max_eq_right (by linarith : (0:ℚ) ≤ (t - 36000) * 0.06),
      min_eq_left (by linarith : (150:ℚ) ≤ (t - 36000) * 0.06),
      max_eq_right (by linarith : (0:ℚ) ≤ (t - 48000) * 0.25),
      max_eq_left (by linarith : (t - 72000) * 0.25 ≤ 0),
      if_neg (by linarith : ¬ (200000:ℚ) < t)]
    norm_num
  rw [if_neg (by linarith : ¬ t ≤ 48600)]
  rcases le_or_lt t 72000 with h7 | h7
  · rw [if_pos h7, max_eq_right (by linarith : (0:ℚ) ≤ (t - 20000) * 0.06),
      min_eq_left (by linarith : (300:ℚ) ≤ (t - 20000) * 0.06),
      max_eq_right (by linarith : (0:ℚ) ≤ (t - 36000) * 0.06),
      min_eq_left (by linarith : (150:ℚ) ≤ (t - 36000) * 0.06),
      max_eq_right (by linarith : (0:ℚ) ≤ (t - 48000) * 0.25),
      min_eq_left (by linarith : (150:ℚ) ≤ (t - 48000) * 0.25),
      max_eq_left (by linarith : (t - 72000) * 0.25 ≤ 0),
      if_neg (by linarith : ¬ (200000:ℚ) < t)]
    norm_num
  rw [if_neg (by linarith : ¬ t ≤ 72000)]
  rcases le_or_lt t 72600 with h8 | h8
  · rw [if_pos h8, max_eq_right (by linarith : (0:ℚ) ≤ (t - 20000) * 0.06),
      min_eq_left (by linarith : (300:ℚ) ≤ (t - 20000) * 0.06),
      max_eq_right (by linarith : (0:ℚ) ≤ (t - 36000) * 0.06),
      min_eq_left (by linarith : (150:ℚ) ≤ (t - 36000) * 0.06),
      max_eq_right (by linarith : (0:ℚ) ≤ (t - 48000) * 0.25),
      min_eq_left (by linarith : (150:ℚ) ≤ (t - 48000) * 0.25),
      max_eq_right (by linarith : (0:ℚ) ≤ (t - 72000) * 0.25),
      if_neg (by linarith : ¬ (200000:ℚ) < t)]
    norm_num
  rw [if_neg (by linarith : ¬ t ≤ 72600)]
  rcases le_or_lt t 200000 with h9 | h9
  · rw [if_pos h9, max_eq_right (by linarith : (0:ℚ) ≤ (t - 20000) * 0.06),
      min_eq_left (by linarith : (300:ℚ) ≤ (t - 20000) * 0.06),
      max_eq_right (by linarith : (0:ℚ) ≤ (t - 36000) * 0.06),
      min_eq_left (by linarith : (150:ℚ) ≤ (t - 36000) * 0.06),
      max_eq_right (by linarith : (0:ℚ) ≤ (t - 48000) * 0.25),
      min_eq_left (by linarith : (150:ℚ) ≤ (t - 48000) * 0.25),
      max_eq_right (by linarith : (0:ℚ) ≤ (t - 72000) * 0.25),
      min_eq_left (by linarith : (150:ℚ) ≤ (t - 72000) * 0.25),
      if_neg (by linarith : ¬ (200000:ℚ) < t)]
    norm_num
  rw [if_neg (by linarith : ¬ t ≤ 200000),
    max_eq_right (by linarith : (0:ℚ) ≤ (t - 20000) * 0.06),
    min_eq_left (by linarith : (300:ℚ) ≤ (t - 20000) * 0.06),
    max_eq_right (by linarith : (0:ℚ) ≤ (t - 36000) * 0.06),
    min_eq_left (by linarith : (150:ℚ) ≤ (t - 36000) * 0.06),
    max_eq_right (by linarith : (0:ℚ) ≤ (t - 48000) * 0.25),
    min_eq_left (by linarith : (150:ℚ) ≤ (t - 48000) * 0.25),
    max_eq_right (by linarith : (0:ℚ) ≤ (t - 72000) * 0.25),
    min_eq_left (by linarith : (150:ℚ) ≤ (t - 72000) * 0.25),
    if_pos (by linarith : (200000:ℚ) < t)]
  norm_num

lemma ramp_mono {c a r t1 t2 : ℚ} (hr : 0 ≤ r) (h : t1 ≤ t2) :
    min c (max 0 ((t1 - a) * r)) ≤ min c (max 0 ((t2 - a) * r)) := by
  refine min_le_min le_rfl (max_le_max le_rfl ?_)
  nlinarith

lemma ramp_lip {c a r t1 t2 : ℚ} (hr : 0 ≤ r) (h : t1 ≤ t2) :
    min c (max 0 ((t2 - a) * r)) - min c (max 0 ((t1 - a) * r)) ≤ r * (t2 - t1) := by
  simp only [min_def, max_def]
  split_ifs <;> nlinarith

lemma premium_mono {t1 t2 : ℚ} (h : t1 ≤ t2) :
    calculateOntarioHealthPremium t1 ≤ calculateOntarioHealthPremium t2 := by
  rw [premium_closed, premium_closed]
  have h1 := ramp_mono (c := 300) (a := 20000) (by norm_num : (0:ℚ) ≤ 0.06) h
  have h2 := ramp_mono (c := 150) (a := 36000) (by norm_num : (0:ℚ) ≤ 0.06) h
  have h3 := ramp_mono (c := 150) (a := 48000) (by norm_num : (0:ℚ) ≤ 0.25) h
  have h4 := ramp_mono (c := 150) (a := 72000) (by norm_num : (0:ℚ) ≤ 0.25) h
  have h5 : (if 200000 < t1 then (150:ℚ) else 0) ≤ (if 200000 < t2 then 150 else 0) := by
    split_ifs <;> linarith
  linarith

/-- Below the 200000 boundary the premium is 1-Lipschitz, hence has no jump:
every lower band transition is a continuous ramp. -/
lemma premium_lipschitz {t1 t2 : ℚ} (h : t1 ≤ t2) (h2 : t2 ≤ 200000) :
    calculateOntarioHealthPremium t2 - calculateOntarioHealthPremium t1 ≤ t2 - t1 := by
  rw [premium_closed, premium_closed]
  have h1 := ramp_lip (c := 300) (a := 20000) (by norm_num : (0:ℚ) ≤ 0.06) h
  have h2a := ramp_lip (c := 150) (a := 36000) (by norm_num : (0:ℚ) ≤ 0.06) h
  have h3 := ramp_lip (c := 150) (a := 48000) (by norm_num : (0:ℚ) ≤ 0.25) h
  have h4 := ramp_lip (c := 150) (a := 72000) (by norm_num : (0:ℚ) ≤ 0.25) h
  have h5 : ¬ (200000:ℚ) < t1 := by linarith
  have h6 : ¬ (200000:ℚ) < t2 := by linarith
  rw [if_neg h5, if_neg h6]
  linarith

lemma provincialTaxBeforeReductionOf_nonneg (t : ℚ) :
    0 ≤ provincialTaxBeforeReductionOf t := by
  unfold provincialTaxBeforeReductionOf
  have h1 : 0 ≤ provincialBasicTaxOf t := le_max_left 0 _
  have h2 : 0 ≤ calculateOntarioSurtax (provincialBasicTaxOf t) := by
    unfold calculateOntarioSurtax
    have := le_max_left (0:ℚ) ((provincialBasicTaxOf t - 5554) * 0.2)
    have := le_max_left (0:ℚ) ((provincialBasicTaxOf t - 7108) * 0.36)
    linarith
  have h3 := premium_nonneg t
  linarith

lemma provincialTaxBeforeReductionOf_mono {t1 t2 : ℚ} (h0 : 0 ≤ t1) (h : t1 ≤ t2) :
    provincialTaxBeforeReductionOf t1 ≤ provincialTaxBeforeReductionOf t2 := by
  unfold provincialTaxBeforeReductionOf
  have hb := provincialBasicTaxOf_mono h0 h
  have hs := surtax_mono hb
  have hp := premium_mono h
  linarith

/-- Piecewise shape of the reduction step as a function of the pre-reduction
provincial tax amount. -/
lemma afterReduction_cases {T : ℚ} (h0 : 0 ≤ T) :
    (T ≤ 300 → max 0 (T - min T (max 0 (600 - T))) = 0) ∧
      (300 ≤ T → T ≤ 600 → max 0 (T - min T (max 0 (600 - T))) = 2 * T - 600) ∧
      (600 ≤ T → max 0 (T - min T (max 0 (600 - T))) = T) := by
  refine ⟨?_, ?_, ?_⟩ <;> intros <;> simp only [min_def, max_def] <;>
    split_ifs <;> linarith

lemma afterReduction_mono {T1 T2 : ℚ} (h0 : 0 ≤ T1) (h : T1 ≤ T2) :
    max 0 (T1 - min T1 (max 0 (600 - T1))) ≤ max 0 (T2 - min T2 (max 0 (600 - T2))) := by
  simp only [min_def, max_def]
  split_ifs <;> linarith

lemma provincialTaxOf_eq_afterReduction (t : ℚ) :
    provincialTaxOf t =
      max 0 (provincialTaxBeforeReductionOf t -
        min (provincialTaxBeforeReductionOf t)
          (max 0 (600 - provincialTaxBeforeReductionOf t))) := by
  unfold provincialTaxOf ontarioTaxReductionOf ONTARIO_TAX_REDUCTION_BASE_2026
  norm_num

lemma provincialTaxOf_mono {t1 t2 : ℚ} (h0 : 0 ≤ t1) (h : t1 ≤ t2) :
    provincialTaxOf t1 ≤ provincialTaxOf t2 := by
  rw [provincialTaxOf_eq_afterReduction, provincialTaxOf_eq_afterReduction]
  exact afterReduction_mono (provincialTaxBeforeReductionOf_nonneg t1)
    (provincialTaxBeforeReductionOf_mono h0 h)

lemma fromGross_federalTax (g : ℚ) :
    (calculateOntarioNetIncomeFromGross g).federalTax =
      roundMoney (federalTaxOf (max 0 g)) := rfl

lemma fromGross_provincialTax (g : ℚ) :
    (calculateOntarioNetIncomeFromGross g).provincialTax =
      roundMoney (provincialTaxOf (max 0 g)) := rfl

lemma fromGross_cpp (g : ℚ) :
    (calculateOntarioNetIncomeFromGross g).cppContribution =
      roundMoney (calculateCppContributions (max 0 g)).total := rfl

lemma fromGross_ei (g : ℚ) :
    (calculateOntarioNetIncomeFromGross g).eiPremium =
      roundMoney (calculateEiPremium (max 0 g)) := rfl

lemma fromInput_federalTax (input : IncomeInput) :
    (calculateOntarioNetIncomeFromInput input).federalTax =
      roundMoney (federalTaxOf (max 0 (max 0 input.yearlySalary + calculateAnnualBonus input))) := rfl

lemma fromInput_provincialTax (input : IncomeInput) :
    (calculateOntarioNetIncomeFromInput input).provincialTax =
      roundMoney (provincialTaxOf (max 0 (max 0 input.yearlySalary + calculateAnnualBonus input))) := rfl

lemma fromInput_cpp (input : IncomeInput) :
    (calculateOntarioNetIncomeFromInput input).cppContribution =
      roundMoney (calculateCppContributions
        (max 0 (max 0 input.yearlySalary + calculateAnnualBonus input))).total := rfl

lemma fromInput_ei (input : IncomeInput) :
    (calculateOntarioNetIncomeFromInput input).eiPremium =
      roundMoney (calculateEiPremium
        (max 0 (max 0 input.yearlySalary + calculateAnnualBonus input))) := rfl

lemma annualBonus_mono {s1 s2 : ℚ} (k : BonusType) (v : ℚ) (h : s1 ≤ s2) :
    calculateAnnualBonus ⟨s1, k, v⟩ ≤ calculateAnnualBonus ⟨s2, k, v⟩ := by
  have hs : max 0 s1 ≤ max 0 s2 := max_le_max le_rfl h
  have hv : (0:ℚ) ≤ max 0 v := le_max_left 0 v
  cases k <;> simp only [calculateAnnualBonus] <;> [skip; skip; skip] <;>
    first
      | exact le_rfl
      | exact div_le_div_of_nonneg_right (mul_le_mul_of_nonneg_right hs hv) (by norm_num)

lemma premium_zero_band {t : ℚ} (h : t ≤ 20000) :
    calculateOntarioHealthPremium t = 0 := by
  unfold calculateOntarioHealthPremium
  rw [if_pos h]

lemma premium_750_band {t : ℚ} (h1 : 72600 < t) (h2 : t ≤ 200000) :
    calculateOntarioHealthPremium t = 750 := by
  unfold calculateOntarioHealthPremium
  rw [if_neg (by linarith), if_neg (by linarith), if_neg (by linarith),
    if_neg (by linarith), if_neg (by linarith), if_neg (by linarith),
    if_neg (by linarith), if_neg (by linarith), if_pos h2]

lemma premium_at_200000 : calculateOntarioHealthPremium 200000 = 750 :=
  premium_750_band (by norm_num) (by norm_num)

lemma premium_900_band {t : ℚ} (h : 200000 < t) :
    calculateOntarioHealthPremium t = 900 := by
  unfold calculateOntarioHealthPremium
  rw [if_neg (by linarith), if_neg (by linarith), if_neg (by linarith),
    if_neg (by linarith), if_neg (by linarith), if_neg (by linarith),
    if_neg (by linarith), if_neg (by linarith), if_neg (by linarith)]

lemma provincialTaxOf_eq_of_600_le {t : ℚ}
    (h : 600 ≤ provincialTaxBeforeReductionOf t) :
    provincialTaxOf t = provincialTaxBeforeReductionOf t := by
  rw [provincialTaxOf_eq_afterReduction]
  exact (afterReduction_cases (provincialTaxBeforeReductionOf_nonneg t)).2.2 h

lemma provBeforeReduction_200000_ge_600 :
    (600:ℚ) ≤ provincialTaxBeforeReductionOf 200000 := by
  norm_num [provincialTaxBeforeReductionOf, provincialBasicTaxOf,
    provincialTaxBeforeCreditsOf, provincialCreditsOf, calculateProgressiveTax,
    progressiveTaxGo, ONTARIO_BRACKETS_2026, ONTARIO_BPA_2026, calculateCppContributions,
    clamp, CPP_BASE_EXEMPTION_2026, CPP_YMPE_2026, CPP_YAMPE_2026,
    CPP_BASE_AND_FIRST_RATE_2026, CPP_SECOND_RATE_2026, calculateEiPremium,
    EI_MAX_INSURABLE_EARNINGS_2026, EI_RATE_2026, calculateOntarioSurtax,
    calculateOntarioHealthPremium, List.getD, min_def, max_def]

lemma foldl_add_eq_sum (f : ExpenseItem → ℚ) :
    ∀ (l : List ExpenseItem) (a : ℚ),
      l.foldl (fun sum row => sum + f row) a = a + (l.map f).sum
  | [], a => by simp
  | x :: xs, a => by
    simp only [List.foldl_cons, List.map_cons, List.sum_cons]
    rw [foldl_add_eq_sum f xs]
    ring

lemma totalExpensesRaw_eq_sum (l : List ExpenseItem) :
    totalExpensesRaw l =
      (l.map fun row => toMonthlyAmount row.amount row.frequency).sum := by
  unfold totalExpensesRaw
  rw [foldl_add_eq_sum]
  ring

end HelperLemmas

/-- C1: for every income, the pre-credit progressive tax computed by the
source loop over the fixed federal and Ontario 2026 tables (strictly
increasing bounds, infinite final bound) equals the standard
marginal-bracket reference definition from the spec. -/
theorem progressive_tax_matches_marginal_reference :
    strictChainFrom 0 FEDERAL_BRACKETS_2026 ∧ strictChainFrom 0 ONTARIO_BRACKETS_2026 ∧
      ∀ income : ℚ,
        calculateProgressiveTax income FEDERAL_BRACKETS_2026 =
            refMarginalTax income FEDERAL_BRACKETS_2026 ∧
          calculateProgressiveTax income ONTARIO_BRACKETS_2026 =
            refMarginalTax income ONTARIO_BRACKETS_2026 :=
  ⟨fed_strictChain, ont_strictChain, fun income =>
    ⟨calculateProgressiveTax_eq_ref income _ fed_strictChain,
     calculateProgressiveTax_eq_ref income _ ont_strictChain⟩⟩

/-- C2: the Ontario tax reduction equals
`min T (max 0 (2*300 - T))` for `T` the pre-reduction provincial tax, the
provincial tax equals `max 0 (T - reduction)`, is never negative, and is `0`
for `T ≤ 300`, `2T - 600` for `300 ≤ T ≤ 600` and `T` (reduction zero) for
`T ≥ 600`. -/
theorem ontario_tax_reduction_clawback (g : ℚ) :
    ontarioTaxReductionOf (max 0 g) =
        min (provincialTaxBeforeReductionOf (max 0 g))
          (max 0 (2 * 300 - provincialTaxBeforeReductionOf (max 0 g))) ∧
      provincialTaxOf (max 0 g) =
        max 0 (provincialTaxBeforeReductionOf (max 0 g) - ontarioTaxReductionOf (max 0 g)) ∧
      (calculateOntarioNetIncomeFromGross g).provincialTax =
        roundMoney (provincialTaxOf (max 0 g)) ∧
      0 ≤ provincialTaxOf (max 0 g) ∧
      (provincialTaxBeforeReductionOf (max 0 g) ≤ 300 → provincialTaxOf (max 0 g) = 0) ∧
      (300 ≤ provincialTaxBeforeReductionOf (max 0 g) →
        provincialTaxBeforeReductionOf (max 0 g) ≤ 600 →
        provincialTaxOf (max 0 g) =
          2 * provincialTaxBeforeReductionOf (max 0 g) - 600) ∧
      (600 ≤ provincialTaxBeforeReductionOf (max 0 g) →
        provincialTaxOf (max 0 g) = provincialTaxBeforeReductionOf (max 0 g) ∧
          ontarioTaxReductionOf (max 0 g) = 0) := by
  have hT := provincialTaxBeforeReductionOf_nonneg (max 0 g)
  have hcases := afterReduction_cases hT
  refine ⟨?_, rfl, rfl, le_max_left 0 _, ?_, ?_, ?_⟩
  · unfold ontarioTaxReductionOf ONTARIO_TAX_REDUCTION_BASE_2026
    norm_num
  · intro h1
    rw [provincialTaxOf_eq_afterReduction]
    exact hcases.1 h1
  · intro h1 h2
    rw [provincialTaxOf_eq_afterReduction]
    exact hcases.2.1 h1 h2
  · intro h1
    refine ⟨?_, ?_⟩
    · rw [provincialTaxOf_eq_afterReduction]
      exact hcases.2.2 h1
    · unfold ontarioTaxReductionOf ONTARIO_TAX_REDUCTION_BASE_2026
      rw [max_eq_left (by linarith : 300 * 2 - provincialTaxBeforeReductionOf (max 0 g) ≤ 0),
        min_eq_right hT]

theorem ontario_tax_reduction_clawback_witness :
    provincialTaxOf (max 0 (0:ℚ)) = 0 ∧
      provincialTaxOf (max 0 (21000:ℚ)) =
        2 * provincialTaxBeforeReductionOf (max 0 (21000:ℚ)) - 600 ∧
      provincialTaxOf (max 0 (100000:ℚ)) =
        provincialTaxBeforeReductionOf (max 0 (100000:ℚ)) := by
  refine ⟨(ontario_tax_reduction_clawback 0).2.2.2.2.1 ?_,
    (ontario_tax_reduction_clawback 21000).2.2.2.2.2.1 ?_ ?_,
    ((ontario_tax_reduction_clawback 100000).2.2.2.2.2.2 ?_).1⟩ <;>
    norm_num [provincialTaxBeforeReductionOf, provincialBasicTaxOf,
      provincialTaxBeforeCreditsOf, provincialCreditsOf, calculateProgressiveTax,
      progressiveTaxGo, ONTARIO_BRACKETS_2026, ONTARIO_BPA_2026, calculateCppContributions,
      clamp, CPP_BASE_EXEMPTION_2026, CPP_YMPE_2026, CPP_YAMPE_2026,
      CPP_BASE_AND_FIRST_RATE_2026, CPP_SECOND_RATE_2026, calculateEiPremium,
      EI_MAX_INSURABLE_EARNINGS_2026, EI_RATE_2026, calculateOntarioSurtax,
      calculateOntarioHealthPremium, List.getD, min_def, max_def]

/-- C3: the federal basic personal amount is the 16452 maximum at or below
the 181205 phase-out start, the 14162 minimum at or above the 258482
phase-out end, and linearly interpolated in between; the federal credit is
the lowest federal rate 0.14 times the phased base plus base-tier CPP plus
EI premium, and the federal tax is `max 0` of pre-credit tax minus credit. -/
theorem federal_bpa_phaseout_and_credit (t : ℚ) :
    (t ≤ 181205 → calculateFederalBasicPersonalAmount t = 16452) ∧
      (258482 ≤ t → calculateFederalBasicPersonalAmount t = 14162) ∧
      (181205 < t → t < 258482 →
        calculateFederalBasicPersonalAmount t =
          16452 - (t - 181205) / (258482 - 181205) * (16452 - 14162)) ∧
      federalCreditsOf t =
        0.14 * (calculateFederalBasicPersonalAmount t +
          (calculateCppContributions t).baseAndFirst + calculateEiPremium t) ∧
      federalTaxOf t = max 0 (federalTaxBeforeCreditsOf t - federalCreditsOf t) := by
  refine ⟨?_, ?_, ?_, ?_, rfl⟩
  · intro h
    unfold calculateFederalBasicPersonalAmount FEDERAL_BPA_PHASEOUT_START_2026
      FEDERAL_BPA_MAX_2026
    rw [if_pos h]
  · intro h
    unfold calculateFederalBasicPersonalAmount FEDERAL_BPA_PHASEOUT_START_2026
      FEDERAL_BPA_PHASEOUT_END_2026 FEDERAL_BPA_MIN_2026
    rw [if_neg (by linarith), if_pos h]
  · intro h1 h2
    unfold calculateFederalBasicPersonalAmount FEDERAL_BPA_PHASEOUT_START_2026
      FEDERAL_BPA_PHASEOUT_END_2026 FEDERAL_BPA_MAX_2026 FEDERAL_BPA_MIN_2026
    rw [if_neg (by linarith), if_neg (by linarith)]
  · unfold federalCreditsOf
    rw [fed_first_rate]

theorem federal_bpa_phaseout_and_credit_witness :
    calculateFederalBasicPersonalAmount (100000:ℚ) = 16452 ∧
      calculateFederalBasicPersonalAmount (300000:ℚ) = 14162 ∧
      calculateFederalBasicPersonalAmount (200000:ℚ) =
        16452 - (200000 - 181205) / (258482 - 181205) * (16452 - 14162) :=
  ⟨(federal_bpa_phaseout_and_credit 100000).1 (by norm_num),
   (federal_bpa_phaseout_and_credit 300000).2.1 (by norm_num),
   (federal_bpa_phaseout_and_credit 200000).2.2.1 (by norm_num) (by norm_num)⟩

/-- C5: both entry points are total functions of their rational inputs;
every negative gross amount produces the same breakdown as 0, and negative
`yearlySalary` or `bonusValue` behave exactly as if they were 0. -/
theorem negative_inputs_clamped_total :
    (∀ g : ℚ, g < 0 →
        calculateOntarioNetIncomeFromGross g = calculateOntarioNetIncomeFromGross 0) ∧
      ∀ input : IncomeInput,
        calculateOntarioNetIncomeFromInput input =
          calculateOntarioNetIncomeFromInput
            ⟨max 0 input.yearlySalary, input.bonusType, max 0 input.bonusValue⟩ := by
  constructor
  · intro g hg
    unfold calculateOntarioNetIncomeFromGross
    rw [max_eq_left hg.le, max_self]
  · intro input
    obtain ⟨s, k, v⟩ := input
    cases k <;>
      simp [calculateOntarioNetIncomeFromInput, calculateAnnualBonus, max0_idem]

theorem negative_inputs_clamped_total_witness :
    calculateOntarioNetIncomeFromGross (-5) = calculateOntarioNetIncomeFromGross 0 ∧
      calculateOntarioNetIncomeFromInput ⟨-3, BonusType.amount, -7⟩ =
        calculateOntarioNetIncomeFromInput ⟨max 0 (-3), BonusType.amount, max 0 (-7)⟩ :=
  ⟨negative_inputs_clamped_total.1 (-5) (by norm_num),
   negative_inputs_clamped_total.2 ⟨-3, BonusType.amount, -7⟩⟩

/-- C6: with `bonusType = none` the effective annual bonus is 0 regardless
of the bonus magnitude, and for non-negative gross `g` the input entry point
returns a breakdown identical in every field to the gross entry point. -/
theorem none_bonus_equals_gross_entry (g m : ℚ) (hg : 0 ≤ g) :
    calculateAnnualBonus ⟨g, BonusType.none, m⟩ = 0 ∧
      calculateOntarioNetIncomeFromInput ⟨g, BonusType.none, m⟩ =
        calculateOntarioNetIncomeFromGross g := by
  refine ⟨rfl, ?_⟩
  simp [calculateOntarioNetIncomeFromInput, calculateAnnualBonus,
    calculateOntarioNetIncomeFromGross, max_eq_right hg, roundMoney]
  norm_num

theorem none_bonus_equals_gross_entry_witness :
    calculateAnnualBonus ⟨50000, BonusType.none, 7⟩ = 0 ∧
      calculateOntarioNetIncomeFromInput ⟨50000, BonusType.none, 7⟩ =
        calculateOntarioNetIncomeFromGross 50000 :=
  none_bonus_equals_gross_entry 50000 7 (by norm_num)

/-- C8: the breakdown's `monthlyNetIncome` is the rounding of the
full-precision annual net income divided by 12, while `annualNetIncome` is
the rounding of the same full-precision value, for both entry points. -/
theorem monthly_net_is_rounded_twelfth (g : ℚ) (input : IncomeInput) :
    ((calculateOntarioNetIncomeFromGross g).monthlyNetIncome =
        roundMoney (annualNetIncomeOf (max 0 g) / 12) ∧
      (calculateOntarioNetIncomeFromGross g).annualNetIncome =
        roundMoney (annualNetIncomeOf (max 0 g))) ∧
      (calculateOntarioNetIncomeFromInput input).monthlyNetIncome =
          roundMoney (annualNetIncomeOf
            (max 0 (max 0 input.yearlySalary + calculateAnnualBonus input)) / 12) ∧
        (calculateOntarioNetIncomeFromInput input).annualNetIncome =
          roundMoney (annualNetIncomeOf
            (max 0 (max 0 input.yearlySalary + calculateAnnualBonus input))) :=
  ⟨⟨rfl, rfl⟩, rfl, rfl⟩

/-- C4: at fixed bonus type and magnitude, each of the four deduction fields
`federalTax`, `provincialTax`, `cppContribution`, `eiPremium` of the
returned breakdown is a non-decreasing function of salary. -/
theorem breakdown_fields_monotone_in_salary (k : BonusType) (v : ℚ) {s1 s2 : ℚ}
    (h : s1 ≤ s2) :
    (calculateOntarioNetIncomeFromInput ⟨s1, k, v⟩).federalTax ≤
        (calculateOntarioNetIncomeFromInput ⟨s2, k, v⟩).federalTax ∧
      (calculateOntarioNetIncomeFromInput ⟨s1, k, v⟩).provincialTax ≤
        (calculateOntarioNetIncomeFromInput ⟨s2, k, v⟩).provincialTax ∧
      (calculateOntarioNetIncomeFromInput ⟨s1, k, v⟩).cppContribution ≤
        (calculateOntarioNetIncomeFromInput ⟨s2, k, v⟩).cppContribution ∧
      (calculateOntarioNetIncomeFromInput ⟨s1, k, v⟩).eiPremium ≤
        (calculateOntarioNetIncomeFromInput ⟨s2, k, v⟩).eiPremium := by
  have hg : max 0 s1 + calculateAnnualBonus ⟨s1, k, v⟩ ≤
      max 0 s2 + calculateAnnualBonus ⟨s2, k, v⟩ :=
    add_le_add (max_le_max le_rfl h) (annualBonus_mono k v h)
  have h0 : (0:ℚ) ≤ max 0 (max 0 s1 + calculateAnnualBonus ⟨s1, k, v⟩) :=
    le_max_left _ _
  have ht : max 0 (max 0 s1 + calculateAnnualBonus ⟨s1, k, v⟩) ≤
      max 0 (max 0 s2 + calculateAnnualBonus ⟨s2, k, v⟩) :=
    max_le_max le_rfl hg
  refine ⟨?_, ?_, ?_, ?_⟩
  · rw [fromInput_federalTax, fromInput_federalTax]
    exact roundMoney_mono (federalTaxOf_mono h0 ht)
  · rw [fromInput_provincialTax, fromInput_provincialTax]
    exact roundMoney_mono (provincialTaxOf_mono h0 ht)
  · rw [fromInput_cpp, fromInput_cpp]
    exact roundMoney_mono (cppTotal_mono ht)
  · rw [fromInput_ei, fromInput_ei]
    exact roundMoney_mono (ei_mono ht)

theorem breakdown_fields_monotone_in_salary_witness :
    (calculateOntarioNetIncomeFromInput ⟨1000, BonusType.none, 0⟩).federalTax ≤
        (calculateOntarioNetIncomeFromInput ⟨2000, BonusType.none, 0⟩).federalTax ∧
      (calculateOntarioNetIncomeFromInput ⟨1000, BonusType.none, 0⟩).provincialTax ≤
        (calculateOntarioNetIncomeFromInput ⟨2000, BonusType.none, 0⟩).provincialTax ∧
      (calculateOntarioNetIncomeFromInput ⟨1000, BonusType.none, 0⟩).cppContribution ≤
        (calculateOntarioNetIncomeFromInput ⟨2000, BonusType.none, 0⟩).cppContribution ∧
      (calculateOntarioNetIncomeFromInput ⟨1000, BonusType.none, 0⟩).eiPremium ≤
        (calculateOntarioNetIncomeFromInput ⟨2000, BonusType.none, 0⟩).eiPremium :=
  breakdown_fields_monotone_in_salary BonusType.none 0 (by norm_num)

/-- C7 (amended): each deduction field of the breakdown is the rounding of
its own full-precision intermediate, and `totalDeductions` is the rounding
of the full-precision sum of the four components — not the sum of the four
already-rounded output fields. -/
theorem totalDeductions_rounds_full_precision_sum (g : ℚ) :
    (calculateOntarioNetIncomeFromGross g).totalDeductions =
        roundMoney (federalTaxOf (max 0 g) + provincialTaxOf (max 0 g) +
          (calculateCppContributions (max 0 g)).total + calculateEiPremium (max 0 g)) ∧
      (calculateOntarioNetIncomeFromGross g).federalTax =
        roundMoney (federalTaxOf (max 0 g)) ∧
      (calculateOntarioNetIncomeFromGross g).provincialTax =
        roundMoney (provincialTaxOf (max 0 g)) ∧
      (calculateOntarioNetIncomeFromGross g).cppContribution =
        roundMoney (calculateCppContributions (max 0 g)).total ∧
      (calculateOntarioNetIncomeFromGross g).eiPremium =
        roundMoney (calculateEiPremium (max 0 g)) :=
  ⟨rfl, rfl, rfl, rfl, rfl⟩

/-- C7 counterexample: at gross 3500.20 the rounded output fields violate
the equation: the components round to 0, 0, 0.01 and 57.05 (sum 57.06),
while `totalDeductions` rounds the full-precision sum to 57.07. -/
theorem rounded_component_sum_mismatch :
    (calculateOntarioNetIncomeFromGross (17501 / 5)).totalDeductions ≠
      (calculateOntarioNetIncomeFromGross (17501 / 5)).federalTax +
        (calculateOntarioNetIncomeFromGross (17501 / 5)).provincialTax +
        (calculateOntarioNetIncomeFromGross (17501 / 5)).cppContribution +
        (calculateOntarioNetIncomeFromGross (17501 / 5)).eiPremium := by
  norm_num [calculateOntarioNetIncomeFromGross, totalDeductionsOf, federalTaxOf,
    federalTaxBeforeCreditsOf, federalCreditsOf, provincialTaxOf, ontarioTaxReductionOf,
    provincialTaxBeforeReductionOf, provincialBasicTaxOf, provincialTaxBeforeCreditsOf,
    provincialCreditsOf, calculateProgressiveTax, progressiveTaxGo, FEDERAL_BRACKETS_2026,
    ONTARIO_BRACKETS_2026, calculateFederalBasicPersonalAmount, FEDERAL_BPA_MAX_2026,
    FEDERAL_BPA_PHASEOUT_START_2026, ONTARIO_BPA_2026, ONTARIO_TAX_REDUCTION_BASE_2026,
    calculateCppContributions, clamp, CPP_BASE_EXEMPTION_2026, CPP_YMPE_2026, CPP_YAMPE_2026,
    CPP_BASE_AND_FIRST_RATE_2026, CPP_SECOND_RATE_2026, calculateEiPremium,
    EI_MAX_INSURABLE_EARNINGS_2026, EI_RATE_2026, calculateOntarioSurtax,
    calculateOntarioHealthPremium, roundMoney, List.getD, min_def, max_def]

/-- C9 (amended): totals are the monthly-equivalent sums with the bi-weekly
conversion exactly `amount * 26 / 12` (100 bi-weekly rounds to 216.67), the
leftover is the unclamped rounded difference, and the rounding rule agrees
with round-half-away-from-zero on non-negative values (on negative values
the code rounds half toward +∞ instead). -/
theorem monthly_aggregation_totals (s : BudgetState) :
    (calculateTotals s).totalExpenses =
        roundMoney ((s.expenses.map fun row =>
          toMonthlyAmount row.amount row.frequency).sum) ∧
      (calculateTotals s).totalInvestments = roundMoney (totalInvestmentsRaw s) ∧
      (calculateTotals s).leftover =
        roundMoney ((calculateOntarioNetIncomeFromInput
            ⟨s.yearlySalary, s.bonusType, s.bonusValue⟩).monthlyNetIncome -
          totalExpensesRaw s.expenses - totalInvestmentsRaw s) ∧
      (∀ a : ℚ, toMonthlyAmount a BudgetFrequency.biweekly = a * 26 / 12) ∧
      roundMoney (toMonthlyAmount 100 BudgetFrequency.biweekly) = 216.67 ∧
      ∀ v : ℚ, 0 ≤ v → roundMoney v = specRoundHalfAwayFromZero v := by
  refine ⟨?_, rfl, rfl, fun a => rfl, ?_, ?_⟩
  · rw [← totalExpensesRaw_eq_sum]
    rfl
  · norm_num [toMonthlyAmount, roundMoney]
  · intro v hv
    unfold specRoundHalfAwayFromZero roundMoney
    rw [if_neg (not_lt.mpr hv)]

theorem monthly_aggregation_totals_witness :
    (calculateTotals witnessBudget).totalExpenses =
        roundMoney ((witnessBudget.expenses.map fun row =>
          toMonthlyAmount row.amount row.frequency).sum) ∧
      roundMoney (1 / 8) = specRoundHalfAwayFromZero (1 / 8) :=
  ⟨(monthly_aggregation_totals witnessBudget).1,
   (monthly_aggregation_totals witnessBudget).2.2.2.2.2 (1 / 8) (by norm_num)⟩

/-- C9 counterexample: a 0.125 monthly expense against zero income yields a
full-precision leftover of -0.125; the code rounds it to -0.12 (half toward
+∞), not the -0.13 demanded by round-half-away-from-zero. -/
theorem leftover_negative_half_rounds_up :
    (calculateTotals eighthExpenseBudget).leftover = -(12 / 100) ∧
      specRoundHalfAwayFromZero
          ((calculateOntarioNetIncomeFromInput
              ⟨eighthExpenseBudget.yearlySalary, eighthExpenseBudget.bonusType,
                eighthExpenseBudget.bonusValue⟩).monthlyNetIncome -
            totalExpensesRaw eighthExpenseBudget.expenses -
            totalInvestmentsRaw eighthExpenseBudget) = -(13 / 100) ∧
      (calculateTotals eighthExpenseBudget).leftover ≠ -(13 / 100) := by
  norm_num [calculateTotals, eighthExpenseBudget, totalExpensesRaw, totalInvestmentsRaw,
    toMonthlyAmount, specRoundHalfAwayFromZero, calculateOntarioNetIncomeFromInput,
    calculateAnnualBonus, calculateOntarioNetIncomeFromGross, annualNetIncomeOf,
    totalDeductionsOf, federalTaxOf, federalTaxBeforeCreditsOf, federalCreditsOf,
    provincialTaxOf, ontarioTaxReductionOf, provincialTaxBeforeReductionOf,
    provincialBasicTaxOf, provincialTaxBeforeCreditsOf, provincialCreditsOf,
    calculateProgressiveTax, progressiveTaxGo, FEDERAL_BRACKETS_2026, ONTARIO_BRACKETS_2026,
    calculateFederalBasicPersonalAmount, FEDERAL_BPA_MAX_2026,
    FEDERAL_BPA_PHASEOUT_START_2026, ONTARIO_BPA_2026, ONTARIO_TAX_REDUCTION_BASE_2026,
    calculateCppContributions, clamp, CPP_BASE_EXEMPTION_2026, CPP_YMPE_2026, CPP_YAMPE_2026,
    CPP_BASE_AND_FIRST_RATE_2026, CPP_SECOND_RATE_2026, calculateEiPremium,
    EI_MAX_INSURABLE_EARNINGS_2026, EI_RATE_2026, calculateOntarioSurtax,
    calculateOntarioHealthPremium, roundMoney, List.getD, min_def, max_def]

/-- C10: the health premium is non-decreasing and bounded in [0, 900]; it is
0 at or below 20000, 750 strictly above 72600 up to 200000 (including at
200000), and 900 strictly above 200000 — a discontinuous 150 step carried
into the provincial tax — while below 200000 it is 1-Lipschitz, so every
lower band transition is a continuous ramp. -/
theorem health_premium_band_structure :
    (∀ t1 t2 : ℚ, t1 ≤ t2 →
        calculateOntarioHealthPremium t1 ≤ calculateOntarioHealthPremium t2) ∧
      (∀ t : ℚ, 0 ≤ calculateOntarioHealthPremium t ∧
        calculateOntarioHealthPremium t ≤ 900) ∧
      (∀ t : ℚ, t ≤ 20000 → calculateOntarioHealthPremium t = 0) ∧
      (∀ t : ℚ, 72600 < t → t ≤ 200000 → calculateOntarioHealthPremium t = 750) ∧
      calculateOntarioHealthPremium 200000 = 750 ∧
      (∀ t : ℚ, 200000 < t → calculateOntarioHealthPremium t = 900) ∧
      (∀ t1 t2 : ℚ, t1 ≤ t2 → t2 ≤ 200000 →
        calculateOntarioHealthPremium t2 - calculateOntarioHealthPremium t1 ≤ t2 - t1) ∧
      ∀ t : ℚ, 200000 < t →
        provincialTaxBeforeReductionOf 200000 + 150 ≤ provincialTaxBeforeReductionOf t ∧
          provincialTaxOf 200000 + 150 ≤ provincialTaxOf t := by
  refine ⟨fun t1 t2 h => premium_mono h,
    fun t => ⟨premium_nonneg t, premium_le_900 t⟩,
    fun t h => premium_zero_band h,
    fun t h1 h2 => premium_750_band h1 h2,
    premium_at_200000,
    fun t h => premium_900_band h,
    fun t1 t2 h h2 => premium_lipschitz h h2,
    ?_⟩
  intro t ht
  have hb : provincialBasicTaxOf 200000 ≤ provincialBasicTaxOf t :=
    provincialBasicTaxOf_mono (by norm_num) ht.le
  have hs : calculateOntarioSurtax (provincialBasicTaxOf 200000) ≤
      calculateOntarioSurtax (provincialBasicTaxOf t) := surtax_mono hb
  have hT : provincialTaxBeforeReductionOf 200000 + 150 ≤
      provincialTaxBeforeReductionOf t := by
    unfold provincialTaxBeforeReductionOf
    rw [premium_at_200000, premium_900_band ht]
    linarith
  refine ⟨hT, ?_⟩
  have h600 := provBeforeReduction_200000_ge_600
  have h600t : (600:ℚ) ≤ provincialTaxBeforeReductionOf t := by linarith
  rw [provincialTaxOf_eq_of_600_le h600, provincialTaxOf_eq_of_600_le h600t]
  exact hT

theorem health_premium_band_structure_witness :
    calculateOntarioHealthPremium 10000 ≤ calculateOntarioHealthPremium 30000 ∧
      calculateOntarioHealthPremium 15000 = 0 ∧
      calculateOntarioHealthPremium 100000 = 750 ∧
      calculateOntarioHealthPremium 250000 = 900 ∧
      calculateOntarioHealthPremium 40000 - calculateOntarioHealthPremium 30000 ≤
        40000 - 30000 ∧
      provincialTaxOf 200000 + 150 ≤ provincialTaxOf 250000 :=
  ⟨health_premium_band_structure.1 10000 30000 (by norm_num),
   health_premium_band_structure.2.2.1 15000 (by norm_num),
   health_premium_band_structure.2.2.2.1 100000 (by norm_num) (by norm_num),
   health_premium_band_structure.2.2.2.2.2.1 250000 (by norm_num),
   health_premium_band_structure.2.2.2.2.2.2.1 30000 40000 (by norm_num) (by norm_num),
   (health_premium_band_structure.2.2.2.2.2.2.2 250000 (by norm_num)).2⟩

end BudgetTool
